import Mathlib

/-!
Verification of the BQ25790 battery-monitor service (driver `bq25790_driver.py`
and HTTP service `monitor.py`) against its natural-language specification.

The hardware bus is modelled as a response function from (read index, register)
to a byte or a bus error; each driver call threads a log recording the bus
operations it issues, in order.  Python floats are modelled as rationals and
Python's `round(x, n)` (banker's rounding) as `pyRound`.
-/

/-- Python `round` to an integer: round-half-to-even (banker's rounding). -/
def roundHalfEven (q : ℚ) : ℤ :=
  if q - ⌊q⌋ < 1/2 then ⌊q⌋
  else if 1/2 < q - ⌊q⌋ then ⌊q⌋ + 1
  else if ⌊q⌋ % 2 = 0 then ⌊q⌋ else ⌊q⌋ + 1

/-- Python `round(q, ndigits)`. -/
def pyRound (ndigits : ℕ) (q : ℚ) : ℚ :=
  (roundHalfEven (q * 10 ^ ndigits) : ℚ) / 10 ^ ndigits

/-- One operation issued to the hardware by the driver. -/
inductive BusOp where
  | read (register : Nat)
  | write (register value : Nat)
  | sleep (seconds : ℚ)
  | openBus (busNumber : Nat)
  deriving DecidableEq, Repr, BEq

/-- The bus transport: maps (how many byte reads were issued so far in this
driver call, register address) to the byte returned, or a bus error (a raised
exception in the Python source).  Indexing reads by position lets the model
express a bus whose answers vary between successive reads of one register. -/
def Bus : Type := Nat → Nat → Except String Nat

/-- Per-call log: index of the next byte read and the operations issued so far. -/
structure BusLog where
  idx : Nat
  trace : List BusOp
  deriving DecidableEq, Repr

/-- Driver computations: exceptions are modelled by `Except`; the log is
returned even when an exception escapes (the operations really happened). -/
def M (α : Type) : Type := Bus → BusLog → Except String α × BusLog

def M.pure {α : Type} (a : α) : M α := fun _ s => (Except.ok a, s)

def M.bind {α β : Type} (x : M α) (f : α → M β) : M β := fun bus s =>
  match x bus s with
  | (Except.ok a, s1) => f a bus s1
  | (Except.error e, s1) => (Except.error e, s1)

instance instMonadM : Monad M where
  pure := M.pure
  bind := M.bind

/-! Register addresses (`BQ25790` class constants in `bq25790_driver.py`). -/

def REG_CHARGER_STATUS_0 : Nat := 0x1B
def REG_CHARGER_STATUS_1 : Nat := 0x1C
def REG_CHARGER_STATUS_2 : Nat := 0x1D
def REG_FAULT_STATUS_0 : Nat := 0x20
def REG_FAULT_STATUS_1 : Nat := 0x21
def REG_ADC_CTRL : Nat := 0x25
def REG_IBUS_ADC : Nat := 0x27
def REG_IBAT_ADC : Nat := 0x29
def REG_VBUS_ADC : Nat := 0x2B
def REG_VBAT_ADC : Nat := 0x31
def REG_VSYS_ADC : Nat := 0x33
def REG_TDIE_ADC : Nat := 0x37

/-- `read_register`: one `read_byte_data` bus transaction. -/
def read_register (register : Nat) : M Nat := fun bus s =>
  match bus s.idx register with
  | Except.ok v => (Except.ok v, ⟨s.idx + 1, s.trace ++ [BusOp.read register]⟩)
  | Except.error e => (Except.error e, ⟨s.idx + 1, s.trace ++ [BusOp.read register]⟩)

/-- `write_register`: one `write_byte_data` bus transaction. -/
def write_register (register value : Nat) : M Unit := fun _ s =>
  (Except.ok (), ⟨s.idx, s.trace ++ [BusOp.write register value]⟩)

/-- `time.sleep`, recorded in the log. -/
def timeSleep (seconds : ℚ) : M Unit := fun _ s =>
  (Except.ok (), ⟨s.idx, s.trace ++ [BusOp.sleep seconds]⟩)

/-- `read_register_16bit`: two sequential byte reads, MSB first. -/
def read_register_16bit (register : Nat) : M Nat := do
  let msb ← read_register register
  let lsb ← read_register (register + 1)
  pure ((msb <<< 8) ||| lsb)

/-- `enable_adc`: write 0x80 to ADC_CTRL, then sleep 0.1 s. -/
def enable_adc : M Unit := do
  write_register REG_ADC_CTRL 0x80
  timeSleep (1/10)

/-- `get_battery_voltage`: VBAT_ADC, 1 mV per bit. -/
def get_battery_voltage : M ℚ := do
  let raw ← read_register_16bit REG_VBAT_ADC
  pure ((raw : ℚ) / 1000)

/-- The two's-complement adjustment inside `get_battery_current`:
`if raw > 32767: raw = raw - 65536`. -/
def signed16 (raw : Nat) : ℤ :=
  if raw > 32767 then (raw : ℤ) - 65536 else (raw : ℤ)

/-- `get_battery_current`: IBAT_ADC, 1 mA per bit, two's complement. -/
def get_battery_current : M ℚ := do
  let raw ← read_register_16bit REG_IBAT_ADC
  pure ((signed16 raw : ℚ) / 1000)

/-- `get_system_voltage`: VSYS_ADC, 1 mV per bit. -/
def get_system_voltage : M ℚ := do
  let raw ← read_register_16bit REG_VSYS_ADC
  pure ((raw : ℚ) / 1000)

/-- `get_bus_voltage`: VBUS_ADC, 1 mV per bit. -/
def get_bus_voltage : M ℚ := do
  let raw ← read_register_16bit REG_VBUS_ADC
  pure ((raw : ℚ) / 1000)

/-- `get_bus_current`: IBUS_ADC, 1 mA per bit (unsigned in the source). -/
def get_bus_current : M ℚ := do
  let raw ← read_register_16bit REG_IBUS_ADC
  pure ((raw : ℚ) / 1000)

/-- `get_die_temperature`: TDIE_ADC, `raw * 0.5 - 40.0`. -/
def get_die_temperature : M ℚ := do
  let raw ← read_register_16bit REG_TDIE_ADC
  pure ((raw : ℚ) * (1/2) - 40)

/-- The charge-status lookup dict with its `"Unknown"` default. -/
def charge_status_str (n : Nat) : String :=
  match n with
  | 0 => "Not Charging"
  | 1 => "Trickle Charge"
  | 2 => "Pre-charge"
  | 3 => "Fast Charge (CC)"
  | 4 => "Taper Charge (CV)"
  | 5 => "Reserved"
  | 6 => "Top-off Timer"
  | 7 => "Charge Termination Done"
  | _ => "Unknown"

/-- The VBUS-status lookup dict with its `"Unknown"` default. -/
def vbus_status_str (n : Nat) : String :=
  match n with
  | 0 => "No Input"
  | 1 => "USB SDP (500mA)"
  | 2 => "USB CDP (1.5A)"
  | 3 => "USB DCP (3A)"
  | 4 => "Adjustable HV DCP"
  | 5 => "Unknown Adapter"
  | 6 => "Non-Standard Adapter"
  | 7 => "OTG"
  | _ => "Unknown"

/-- Result dict of `get_charger_status`. -/
structure ChargerStatus where
  charging : Bool
  charge_status : String
  vbus_present : Bool
  vbus_status : String
  battery_present : Bool
  power_good : Bool
  deriving DecidableEq, Repr

/-- `get_charger_status`: reads status0..status2 and decodes the bitfields. -/
def get_charger_status : M ChargerStatus := do
  let status0 ← read_register REG_CHARGER_STATUS_0
  let status1 ← read_register REG_CHARGER_STATUS_1
  let status2 ← read_register REG_CHARGER_STATUS_2
  pure {
    charging := status1 &&& 0x10 != 0
    charge_status := charge_status_str ((status1 >>> 5) &&& 0x07)
    vbus_present := status0 &&& 0x80 != 0
    vbus_status := vbus_status_str ((status0 >>> 5) &&& 0x07)
    battery_present := !(status2 &&& 0x08 != 0)
    power_good := status0 &&& 0x04 != 0 }

/-- Result dict of `get_fault_status`. -/
structure FaultStatus where
  vac1_ovp : Bool
  vac2_ovp : Bool
  conv_ocp : Bool
  ibat_reg : Bool
  ibus_reg : Bool
  vbat_ovp : Bool
  vbus_ovp : Bool
  vsys_ovp : Bool
  tshut : Bool
  bat_temp_fault : Bool
  deriving DecidableEq, Repr

/-- `get_fault_status`: reads fault0, fault1 and masks out the ten flags. -/
def get_fault_status : M FaultStatus := do
  let fault0 ← read_register REG_FAULT_STATUS_0
  let fault1 ← read_register REG_FAULT_STATUS_1
  pure {
    vac1_ovp := fault0 &&& 0x80 != 0
    vac2_ovp := fault0 &&& 0x40 != 0
    conv_ocp := fault0 &&& 0x20 != 0
    ibat_reg := fault0 &&& 0x10 != 0
    ibus_reg := fault0 &&& 0x08 != 0
    vbat_ovp := fault0 &&& 0x04 != 0
    vbus_ovp := fault0 &&& 0x02 != 0
    vsys_ovp := fault1 &&& 0x80 != 0
    tshut := fault1 &&& 0x40 != 0
    bat_temp_fault := fault1 &&& 0x08 != 0 }

/-- `"battery"` sub-dict of `get_all_data`. -/
structure BatteryData where
  voltage : ℚ
  current : ℚ
  power : ℚ
  deriving DecidableEq, Repr

/-- `"system"` sub-dict of `get_all_data`. -/
structure SystemData where
  voltage : ℚ
  temperature : ℚ
  deriving DecidableEq, Repr

/-- `"input"` sub-dict of `get_all_data`. -/
structure InputData where
  voltage : ℚ
  current : ℚ
  power : ℚ
  deriving DecidableEq, Repr

/-- The full dict returned by `get_all_data`. -/
structure AllData where
  battery : BatteryData
  system : SystemData
  input : InputData
  status : ChargerStatus
  faults : FaultStatus
  timestamp : ℚ
  deriving DecidableEq, Repr

/-- `get_all_data`: enables the ADC, then evaluates the result dict.  Python
evaluates the dict literal left to right, so the reads happen in this order;
note the `"power"` entries call the voltage/current getters a second time.
`t` is the value `time.time()` returns for the `"timestamp"` entry. -/
def get_all_data (t : ℚ) : M AllData := do
  enable_adc
  let batteryVoltage ← get_battery_voltage
  let batteryCurrent ← get_battery_current
  let batteryVoltage2 ← get_battery_voltage
  let batteryCurrent2 ← get_battery_current
  let systemVoltage ← get_system_voltage
  let dieTemperature ← get_die_temperature
  let inputVoltage ← get_bus_voltage
  let inputCurrent ← get_bus_current
  let inputVoltage2 ← get_bus_voltage
  let inputCurrent2 ← get_bus_current
  let status ← get_charger_status
  let faults ← get_fault_status
  pure {
    battery := {
      voltage := pyRound 3 batteryVoltage
      current := pyRound 3 batteryCurrent
      power := pyRound 3 (batteryVoltage2 * batteryCurrent2) }
    system := {
      voltage := pyRound 3 systemVoltage
      temperature := pyRound 1 dieTemperature }
    input := {
      voltage := pyRound 3 inputVoltage
      current := pyRound 3 inputCurrent
      power := pyRound 3 (inputVoltage2 * inputCurrent2) }
    status := status
    faults := faults
    timestamp := t }

/-! ## The HTTP service (`monitor.py`) -/

/-- The module-level `cache` dict: empty, or `{'data': d, 'timestamp': ts}`. -/
abbrev Cache : Type := Option (AllData × ℚ)

/-- `cache_timeout = 1.0`. -/
def cache_timeout : ℚ := 1

/-- Response of the `/battery` handler: HTTP 200 with the data dict, or
HTTP 500 with the JSON error body `{"error": ..., "details": ...}`. -/
inductive BatteryResponse where
  | ok (d : AllData)
  | failure (error details : String)
  deriving DecidableEq, Repr

/-- HTTP status code of a `/battery` response. -/
def respCode : BatteryResponse → Nat
  | BatteryResponse.ok _ => 200
  | BatteryResponse.failure _ _ => 500

/-- Outcome of one `/battery` request: the response, the new module-level
cache, and the bus operations the request issued. -/
structure HandlerResult where
  resp : BatteryResponse
  cache : Cache
  ops : List BusOp
  deriving Repr

/-- The `try` block of `get_battery_info`: run `bq.get_all_data()`; on success
publish `{'data': data, 'timestamp': now}` to the cache, on an exception
return the 500 error body and leave the cache as it was. -/
def battery_capture (now tcap : ℚ) (bus : Bus) (cache : Cache) : HandlerResult :=
  match get_all_data tcap bus ⟨0, []⟩ with
  | (Except.ok d, log) => ⟨BatteryResponse.ok d, some (d, now), log.trace⟩
  | (Except.error e, log) => ⟨BatteryResponse.failure "Failed to read battery data" e, cache, log.trace⟩

/-- The `/battery` handler `get_battery_info`: serve the cache when
`'data' in cache and now - cache['timestamp'] < cache_timeout`, else capture.
`now` is the handler's `time.time()`, `tcap` the one inside `get_all_data`. -/
def get_battery_info (now tcap : ℚ) (bus : Bus) (cache : Cache) : HandlerResult :=
  match cache with
  | some (d, ts) =>
      if now - ts < cache_timeout then ⟨BatteryResponse.ok d, some (d, ts), []⟩
      else battery_capture now tcap bus cache
  | none => battery_capture now tcap bus cache

/-- `bq.get_all_data()` as seen by a caller: just the value or the exception. -/
def capture (tcap : ℚ) (bus : Bus) : Except String AllData :=
  (get_all_data tcap bus ⟨0, []⟩).1

/-- Number of hardware captures evidenced by an operation log: each
`get_all_data` writes 0x80 to ADC_CTRL exactly once. -/
def countCaptures (ops : List BusOp) : Nat :=
  ops.count (BusOp.write REG_ADC_CTRL 0x80)

/-- Result of the single-value routes (`/battery/voltage` etc.). -/
structure RouteResult where
  code : Nat
  body : Except String ℚ
  ops : List BusOp
  deriving Repr

/-- The `/battery/voltage` handler: `bq.get_battery_voltage()` directly
(no ADC enable), rounded to 3 decimals, 500 on an exception. -/
def get_voltage (bus : Bus) : RouteResult :=
  match get_battery_voltage bus ⟨0, []⟩ with
  | (Except.ok v, log) => ⟨200, Except.ok (pyRound 3 v), log.trace⟩
  | (Except.error e, log) => ⟨500, Except.error e, log.trace⟩

/-- The `/battery/current` handler: `bq.get_battery_current()` directly. -/
def get_current (bus : Bus) : RouteResult :=
  match get_battery_current bus ⟨0, []⟩ with
  | (Except.ok v, log) => ⟨200, Except.ok (pyRound 3 v), log.trace⟩
  | (Except.error e, log) => ⟨500, Except.error e, log.trace⟩

/-- The `/battery/temperature` handler: `bq.get_die_temperature()` directly,
rounded to 1 decimal. -/
def get_temperature (bus : Bus) : RouteResult :=
  match get_die_temperature bus ⟨0, []⟩ with
  | (Except.ok v, log) => ⟨200, Except.ok (pyRound 1 v), log.trace⟩
  | (Except.error e, log) => ⟨500, Except.error e, log.trace⟩

/-- `get_bq_instance`: returns the existing instance without touching the
hardware, or constructs one (`BQ25790(...)` opens the bus; `init` is the
outcome of that constructor call). -/
def get_bq_instance (bqInstance : Bool) (init : Except String Unit) :
    Except String Bool × List BusOp :=
  if bqInstance then (Except.ok true, [])
  else
    match init with
    | Except.ok _ => (Except.ok true, [BusOp.openBus 1])
    | Except.error e => (Except.error e, [BusOp.openBus 1])

/-- Body of a `/health` response. -/
inductive HealthBody where
  | healthy
  | unhealthy (e : String)
  deriving DecidableEq, Repr

/-- The `/health` handler: `get_bq_instance()` then 200 healthy, or 503 with
the exception text.  Returns (status, body), the new `bq_instance` state, and
the bus operations issued. -/
def health (bqInstance : Bool) (init : Except String Unit) :
    (Nat × HealthBody) × Bool × List BusOp :=
  match get_bq_instance bqInstance init with
  | (Except.ok b, ops) => ((200, HealthBody.healthy), b, ops)
  | (Except.error e, ops) => ((503, HealthBody.unhealthy e), bqInstance, ops)

/-! ## Interleaving model of concurrent `/battery` requests

Two request threads (named `false` and `true`) each execute the statements of
`get_battery_info` as atomic steps; a schedule is the list of thread ids in
the order the scheduler runs them.  The steps mirror the source lines:
check the cache (outside the lock), acquire `bq_lock`, run `get_all_data`
(entry and exit are separate steps so that "a capture is in flight" is a
state), release the lock, and update the module-level cache (the source
updates it after the `with bq_lock` block ends). -/

/-- Shared state of the two-thread interleaving model. -/
structure ConcState where
  pc : Bool → Nat
  lockHolder : Option Bool
  cache : Cache
  pending : Bool → Option AllData
  capturing : Bool → Bool
  capCount : Nat

/-- Pointwise update of a two-thread map. -/
def updFn {α : Type} (f : Bool → α) (i : Bool) (v : α) : Bool → α :=
  fun j => if j = i then v else f j

/-- Initial state: both threads at their cache check, lock free, empty cache. -/
def concInit : ConcState :=
  ⟨fun _ => 0, none, none, fun _ => none, fun _ => false, 0⟩

/-- One atomic step of thread `i`.  `tau i` is the `now = time.time()` thread
`i` took at its cache check; `tcap i` the `time.time()` inside its capture.
pc 0: cache check; pc 1: acquire `bq_lock` (no-op while held); pc 2: enter
`get_all_data`; pc 3: `get_all_data` returns or raises; pc 4: leave the
`with` block; pc 5: `cache = {'data': ..., 'timestamp': now}` (skipped when
the capture raised); pc 6: request finished. -/
def concStep (tau tcap : Bool → ℚ) (bus : Bus) (i : Bool) (s : ConcState) : ConcState :=
  match s.pc i with
  | 0 =>
      match s.cache with
      | some (_, ts) =>
          if tau i - ts < cache_timeout then { s with pc := updFn s.pc i 6 }
          else { s with pc := updFn s.pc i 1 }
      | none => { s with pc := updFn s.pc i 1 }
  | 1 =>
      match s.lockHolder with
      | none => { s with lockHolder := some i, pc := updFn s.pc i 2 }
      | some _ => s
  | 2 =>
      { s with capturing := updFn s.capturing i true, capCount := s.capCount + 1,
               pc := updFn s.pc i 3 }
  | 3 =>
      { s with capturing := updFn s.capturing i false,
               pending := updFn s.pending i (get_all_data (tcap i) bus ⟨0, []⟩).1.toOption,
               pc := updFn s.pc i 4 }
  | 4 =>
      { s with lockHolder := none, pc := updFn s.pc i 5 }
  | 5 =>
      match s.pending i with
      | some d => { s with cache := some (d, tau i), pc := updFn s.pc i 6 }
      | none => { s with pc := updFn s.pc i 6 }
  | _ => s

/-- Run a schedule from the initial state. -/
def concRun (tau tcap : Bool → ℚ) (bus : Bus) (sched : List Bool) : ConcState :=
  sched.foldl (fun s i => concStep tau tcap bus i s) concInit

/-- Lock discipline invariant of the interleaving model: a thread is inside
`get_all_data` only at pc 3, and a thread whose pc is in the `with bq_lock`
body (2..4) holds the lock. -/
def concInv (s : ConcState) : Prop :=
  (s.capturing false = true → s.pc false = 3) ∧
  (s.capturing true = true → s.pc true = 3) ∧
  (2 ≤ s.pc false ∧ s.pc false ≤ 4 → s.lockHolder = some false) ∧
  (2 ≤ s.pc true ∧ s.pc true ≤ 4 → s.lockHolder = some true)

/-! ## Concrete buses and traces used in the theorems -/

/-- A bus that answers every read with `0`. -/
def busAllZero : Bus := fun _ _ => Except.ok 0

/-- A bus on which every read raises. -/
def busDown : Bus := fun _ _ => Except.error "Remote I2C error"

/-- A register-deterministic bus: every read of a register returns the same
byte `f register`, no matter when it is issued. -/
def regBus (f : Nat → Nat) : Bus := fun _ register => Except.ok (f register)

/-- A bus whose answers change between reads: the first byte read (VBAT MSB)
is 1 and the fourth (IBAT LSB) is 100, every later read returns 0.  So the
first VBAT/IBAT reads give 0.256 V and 0.1 A while the re-reads for the
power entry give 0 V and 0 A. -/
def busDrift : Bus := fun i _ =>
  Except.ok (if i = 0 then 1 else if i = 3 then 100 else 0)

/-- A bus serving fixed charger-status bytes. -/
def statusBus (s0 s1 s2 : Nat) : Bus := fun _ register =>
  Except.ok (if register = REG_CHARGER_STATUS_0 then s0
    else if register = REG_CHARGER_STATUS_1 then s1
    else if register = REG_CHARGER_STATUS_2 then s2 else 0)

/-- A bus serving fixed fault bytes. -/
def faultBus (f0 f1 : Nat) : Bus := fun _ register =>
  Except.ok (if register = REG_FAULT_STATUS_0 then f0 else f1)

/-- A bus serving a fixed IBAT word, MSB then LSB. -/
def ibatBus (msb lsb : Nat) : Bus := fun i _ =>
  Except.ok (if i = 0 then msb else lsb)

/-- The exact operation sequence of one successful `get_all_data` call. -/
def fullCaptureTrace : List BusOp :=
  [BusOp.write REG_ADC_CTRL 0x80, BusOp.sleep (1/10),
   BusOp.read REG_VBAT_ADC, BusOp.read (REG_VBAT_ADC + 1),
   BusOp.read REG_IBAT_ADC, BusOp.read (REG_IBAT_ADC + 1),
   BusOp.read REG_VBAT_ADC, BusOp.read (REG_VBAT_ADC + 1),
   BusOp.read REG_IBAT_ADC, BusOp.read (REG_IBAT_ADC + 1),
   BusOp.read REG_VSYS_ADC, BusOp.read (REG_VSYS_ADC + 1),
   BusOp.read REG_TDIE_ADC, BusOp.read (REG_TDIE_ADC + 1),
   BusOp.read REG_VBUS_ADC, BusOp.read (REG_VBUS_ADC + 1),
   BusOp.read REG_IBUS_ADC, BusOp.read (REG_IBUS_ADC + 1),
   BusOp.read REG_VBUS_ADC, BusOp.read (REG_VBUS_ADC + 1),
   BusOp.read REG_IBUS_ADC, BusOp.read (REG_IBUS_ADC + 1),
   BusOp.read REG_CHARGER_STATUS_0, BusOp.read REG_CHARGER_STATUS_1,
   BusOp.read REG_CHARGER_STATUS_2,
   BusOp.read REG_FAULT_STATUS_0, BusOp.read REG_FAULT_STATUS_1]

/-- Spec-side model of two's-complement decoding.  Modelled from the spec:
"interpret raw16 as two's-complement 16-bit signed integer ... values >= 32768
wrap to negative"; compared below against the source's `signed16`. -/
def twosComplement16 (raw : Nat) : ℤ :=
  if 32768 ≤ raw then (raw : ℤ) - 65536 else (raw : ℤ)

/-- The current value `/battery/current`-style callers observe for a fixed
IBAT word (`msb`, `lsb`). -/
def batteryCurrentAt (msb lsb : Nat) : ℚ :=
  match (get_battery_current (ibatBus msb lsb) ⟨0, []⟩).1 with
  | Except.ok q => q
  | Except.error _ => 0

/-- The snapshot captured from the all-zero bus. -/
def dAllZero : AllData :=
  match (get_all_data 0 busAllZero ⟨0, []⟩).1 with
  | Except.ok d => d
  | Except.error _ =>
      ⟨⟨0, 0, 0⟩, ⟨0, 0⟩, ⟨0, 0, 0⟩, ⟨false, "", false, "", false, false⟩,
       ⟨false, false, false, false, false, false, false, false, false, false⟩, 0⟩

/-- The register-read order the specification describes: each ADC and status
register once, VBAT, IBAT, VSYS, VBUS, IBUS, TDIE, status0-2, fault0-1. -/
def specCaptureTrace : List BusOp :=
  [BusOp.write REG_ADC_CTRL 0x80, BusOp.sleep (1/10),
   BusOp.read REG_VBAT_ADC, BusOp.read (REG_VBAT_ADC + 1),
   BusOp.read REG_IBAT_ADC, BusOp.read (REG_IBAT_ADC + 1),
   BusOp.read REG_VSYS_ADC, BusOp.read (REG_VSYS_ADC + 1),
   BusOp.read REG_VBUS_ADC, BusOp.read (REG_VBUS_ADC + 1),
   BusOp.read REG_IBUS_ADC, BusOp.read (REG_IBUS_ADC + 1),
   BusOp.read REG_TDIE_ADC, BusOp.read (REG_TDIE_ADC + 1),
   BusOp.read REG_CHARGER_STATUS_0, BusOp.read REG_CHARGER_STATUS_1,
   BusOp.read REG_CHARGER_STATUS_2,
   BusOp.read REG_FAULT_STATUS_0, BusOp.read REG_FAULT_STATUS_1]

/-! ## Helper lemmas: logs of successful driver calls -/

theorem read_register_ok {reg v : Nat} {bus : Bus} {s s1 : BusLog}
    (h : read_register reg bus s = (Except.ok v, s1)) :
    s1 = ⟨s.idx + 1, s.trace ++ [BusOp.read reg]⟩ := by
  unfold read_register at h
  split at h <;> simp_all

theorem read16_ok {reg v : Nat} {bus : Bus} {s s1 : BusLog}
    (h : read_register_16bit reg bus s = (Except.ok v, s1)) :
    s1 = ⟨s.idx + 2, s.trace ++ [BusOp.read reg, BusOp.read (reg + 1)]⟩ := by
  simp only [read_register_16bit, Bind.bind, Pure.pure, instMonadM, M.bind, M.pure] at h
  split at h
  case _ a sa heqa =>
    split at h
    case _ b sb heqb =>
      obtain rfl := read_register_ok heqa
      obtain rfl := read_register_ok heqb
      simp_all
    case _ => exact absurd h (by simp)
  case _ => exact absurd h (by simp)

theorem get_battery_voltage_ok {bus : Bus} {s s1 : BusLog} {v : ℚ}
    (h : get_battery_voltage bus s = (Except.ok v, s1)) :
    s1 = ⟨s.idx + 2, s.trace ++ [BusOp.read REG_VBAT_ADC, BusOp.read (REG_VBAT_ADC + 1)]⟩ := by
  simp only [get_battery_voltage, Bind.bind, Pure.pure, instMonadM, M.bind, M.pure] at h
  split at h
  case _ a sa heqa => obtain rfl := read16_ok heqa; simp_all
  case _ => exact absurd h (by simp)

theorem get_battery_current_ok {bus : Bus} {s s1 : BusLog} {v : ℚ}
    (h : get_battery_current bus s = (Except.ok v, s1)) :
    s1 = ⟨s.idx + 2, s.trace ++ [BusOp.read REG_IBAT_ADC, BusOp.read (REG_IBAT_ADC + 1)]⟩ := by
  simp only [get_battery_current, Bind.bind, Pure.pure, instMonadM, M.bind, M.pure] at h
  split at h
  case _ a sa heqa => obtain rfl := read16_ok heqa; simp_all
  case _ => exact absurd h (by simp)

theorem get_system_voltage_ok {bus : Bus} {s s1 : BusLog} {v : ℚ}
    (h : get_system_voltage bus s = (Except.ok v, s1)) :
    s1 = ⟨s.idx + 2, s.trace ++ [BusOp.read REG_VSYS_ADC, BusOp.read (REG_VSYS_ADC + 1)]⟩ := by
  simp only [get_system_voltage, Bind.bind, Pure.pure, instMonadM, M.bind, M.pure] at h
  split at h
  case _ a sa heqa => obtain rfl := read16_ok heqa; simp_all
  case _ => exact absurd h (by simp)

theorem get_bus_voltage_ok {bus : Bus} {s s1 : BusLog} {v : ℚ}
    (h : get_bus_voltage bus s = (Except.ok v, s1)) :
    s1 = ⟨s.idx + 2, s.trace ++ [BusOp.read REG_VBUS_ADC, BusOp.read (REG_VBUS_ADC + 1)]⟩ := by
  simp only [get_bus_voltage, Bind.bind, Pure.pure, instMonadM, M.bind, M.pure] at h
  split at h
  case _ a sa heqa => obtain rfl := read16_ok heqa; simp_all
  case _ => exact absurd h (by simp)

theorem get_bus_current_ok {bus : Bus} {s s1 : BusLog} {v : ℚ}
    (h : get_bus_current bus s = (Except.ok v, s1)) :
    s1 = ⟨s.idx + 2, s.trace ++ [BusOp.read REG_IBUS_ADC, BusOp.read (REG_IBUS_ADC + 1)]⟩ := by
  simp only [get_bus_current, Bind.bind, Pure.pure, instMonadM, M.bind, M.pure] at h
  split at h
  case _ a sa heqa => obtain rfl := read16_ok heqa; simp_all
  case _ => exact absurd h (by simp)

theorem get_die_temperature_ok {bus : Bus} {s s1 : BusLog} {v : ℚ}
    (h : get_die_temperature bus s = (Except.ok v, s1)) :
    s1 = ⟨s.idx + 2, s.trace ++ [BusOp.read REG_TDIE_ADC, BusOp.read (REG_TDIE_ADC + 1)]⟩ := by
  simp only [get_die_temperature, Bind.bind, Pure.pure, instMonadM, M.bind, M.pure] at h
  split at h
  case _ a sa heqa => obtain rfl := read16_ok heqa; simp_all
  case _ => exact absurd h (by simp)

theorem get_charger_status_ok {bus : Bus} {s s1 : BusLog} {v : ChargerStatus}
    (h : get_charger_status bus s = (Except.ok v, s1)) :
    s1 = ⟨s.idx + 3, s.trace ++ [BusOp.read REG_CHARGER_STATUS_0,
      BusOp.read REG_CHARGER_STATUS_1, BusOp.read REG_CHARGER_STATUS_2]⟩ := by
  simp only [get_charger_status, Bind.bind, Pure.pure, instMonadM, M.bind, M.pure] at h
  split at h
  case _ a sa heqa =>
    split at h
    case _ b sb heqb =>
      split at h
      case _ c sc heqc =>
        obtain rfl := read_register_ok heqa
        obtain rfl := read_register_ok heqb
        obtain rfl := read_register_ok heqc
        simp_all
      case _ => exact absurd h (by simp)
    case _ => exact absurd h (by simp)
  case _ => exact absurd h (by simp)

theorem get_fault_status_ok {bus : Bus} {s s1 : BusLog} {v : FaultStatus}
    (h : get_fault_status bus s = (Except.ok v, s1)) :
    s1 = ⟨s.idx + 2, s.trace ++ [BusOp.read REG_FAULT_STATUS_0, BusOp.read REG_FAULT_STATUS_1]⟩ := by
  simp only [get_fault_status, Bind.bind, Pure.pure, instMonadM, M.bind, M.pure] at h
  split at h
  case _ a sa heqa =>
    split at h
    case _ b sb heqb =>
      obtain rfl := read_register_ok heqa
      obtain rfl := read_register_ok heqb
      simp_all
    case _ => exact absurd h (by simp)
  case _ => exact absurd h (by simp)

set_option maxHeartbeats 1000000 in
theorem capture_ok_trace {t : ℚ} {bus : Bus} {d : AllData} {log : BusLog}
    (h : get_all_data t bus ⟨0, []⟩ = (Except.ok d, log)) :
    log.trace = fullCaptureTrace ∧ d.timestamp = t := by
  simp only [get_all_data, enable_adc, write_register, timeSleep,
    Bind.bind, Pure.pure, instMonadM, M.bind, M.pure] at h
  repeat split at h
  any_goals (exfalso; simp at h; done)
  rename_i x1 a1 sl1 h1 x2 a2 sl2 h2 x3 a3 sl3 h3 x4 a4 sl4 h4 x5 a5 sl5 h5 x6 a6 sl6 h6 x7 a7 sl7 h7 x8 a8 sl8 h8 x9 a9 sl9 h9 x10 a10 sl10 h10 x11 a11 sl11 h11 x12 a12 sl12 h12
  obtain rfl := get_battery_voltage_ok h1
  obtain rfl := get_battery_current_ok h2
  obtain rfl := get_battery_voltage_ok h3
  obtain rfl := get_battery_current_ok h4
  obtain rfl := get_system_voltage_ok h5
  obtain rfl := get_die_temperature_ok h6
  obtain rfl := get_bus_voltage_ok h7
  obtain rfl := get_bus_current_ok h8
  obtain rfl := get_bus_voltage_ok h9
  obtain rfl := get_bus_current_ok h10
  obtain rfl := get_charger_status_ok h11
  obtain rfl := get_fault_status_ok h12
  simp only [Prod.mk.injEq, Except.ok.injEq] at h
  obtain ⟨rfl, rfl⟩ := h
  exact ⟨by simp [fullCaptureTrace], rfl⟩

/-! ## Helper lemmas: closed-form runs on the concrete buses -/

theorem charger_status_run (s0 s1 s2 : Nat) :
    get_charger_status (statusBus s0 s1 s2) ⟨0, []⟩ =
      (Except.ok ⟨s1 &&& 0x10 != 0, charge_status_str ((s1 >>> 5) &&& 0x07),
        s0 &&& 0x80 != 0, vbus_status_str ((s0 >>> 5) &&& 0x07),
        !(s2 &&& 0x08 != 0), s0 &&& 0x04 != 0⟩,
       ⟨3, [BusOp.read REG_CHARGER_STATUS_0, BusOp.read REG_CHARGER_STATUS_1,
            BusOp.read REG_CHARGER_STATUS_2]⟩) := rfl

theorem battery_current_run (msb lsb : Nat) :
    get_battery_current (ibatBus msb lsb) ⟨0, []⟩ =
      (Except.ok ((signed16 ((msb <<< 8) ||| lsb) : ℚ) / 1000),
       ⟨2, [BusOp.read REG_IBAT_ADC, BusOp.read (REG_IBAT_ADC + 1)]⟩) := rfl

theorem fault_status_run (f0 f1 : Nat) :
    get_fault_status (faultBus f0 f1) ⟨0, []⟩ =
      (Except.ok ⟨f0 &&& 0x80 != 0, f0 &&& 0x40 != 0, f0 &&& 0x20 != 0,
        f0 &&& 0x10 != 0, f0 &&& 0x08 != 0, f0 &&& 0x04 != 0, f0 &&& 0x02 != 0,
        f1 &&& 0x80 != 0, f1 &&& 0x40 != 0, f1 &&& 0x08 != 0⟩,
       ⟨2, [BusOp.read REG_FAULT_STATUS_0, BusOp.read REG_FAULT_STATUS_1]⟩) := rfl

theorem get_all_data_regBus_run (t : ℚ) (f : Nat → Nat) :
    get_all_data t (regBus f) ⟨0, []⟩ =
      (Except.ok {
        battery := {
          voltage := pyRound 3 ((((f REG_VBAT_ADC <<< 8) ||| f (REG_VBAT_ADC + 1) : Nat) : ℚ) / 1000)
          current := pyRound 3 ((signed16 ((f REG_IBAT_ADC <<< 8) ||| f (REG_IBAT_ADC + 1)) : ℚ) / 1000)
          power := pyRound 3 (((((f REG_VBAT_ADC <<< 8) ||| f (REG_VBAT_ADC + 1) : Nat) : ℚ) / 1000) *
            ((signed16 ((f REG_IBAT_ADC <<< 8) ||| f (REG_IBAT_ADC + 1)) : ℚ) / 1000)) }
        system := {
          voltage := pyRound 3 ((((f REG_VSYS_ADC <<< 8) ||| f (REG_VSYS_ADC + 1) : Nat) : ℚ) / 1000)
          temperature := pyRound 1 ((((f REG_TDIE_ADC <<< 8) ||| f (REG_TDIE_ADC + 1) : Nat) : ℚ) * (1/2) - 40) }
        input := {
          voltage := pyRound 3 ((((f REG_VBUS_ADC <<< 8) ||| f (REG_VBUS_ADC + 1) : Nat) : ℚ) / 1000)
          current := pyRound 3 ((((f REG_IBUS_ADC <<< 8) ||| f (REG_IBUS_ADC + 1) : Nat) : ℚ) / 1000)
          power := pyRound 3 (((((f REG_VBUS_ADC <<< 8) ||| f (REG_VBUS_ADC + 1) : Nat) : ℚ) / 1000) *
            ((((f REG_IBUS_ADC <<< 8) ||| f (REG_IBUS_ADC + 1) : Nat) : ℚ) / 1000)) }
        status := ⟨f REG_CHARGER_STATUS_1 &&& 0x10 != 0,
          charge_status_str ((f REG_CHARGER_STATUS_1 >>> 5) &&& 0x07),
          f REG_CHARGER_STATUS_0 &&& 0x80 != 0,
          vbus_status_str ((f REG_CHARGER_STATUS_0 >>> 5) &&& 0x07),
          !(f REG_CHARGER_STATUS_2 &&& 0x08 != 0),
          f REG_CHARGER_STATUS_0 &&& 0x04 != 0⟩
        faults := ⟨f REG_FAULT_STATUS_0 &&& 0x80 != 0, f REG_FAULT_STATUS_0 &&& 0x40 != 0,
          f REG_FAULT_STATUS_0 &&& 0x20 != 0, f REG_FAULT_STATUS_0 &&& 0x10 != 0,
          f REG_FAULT_STATUS_0 &&& 0x08 != 0, f REG_FAULT_STATUS_0 &&& 0x04 != 0,
          f REG_FAULT_STATUS_0 &&& 0x02 != 0, f REG_FAULT_STATUS_1 &&& 0x80 != 0,
          f REG_FAULT_STATUS_1 &&& 0x40 != 0, f REG_FAULT_STATUS_1 &&& 0x08 != 0⟩
        timestamp := t },
       ⟨25, fullCaptureTrace⟩) := rfl

/-! ## Helper lemmas: Python rounding -/

theorem roundHalfEven_intCast (k : ℤ) : roundHalfEven (k : ℚ) = k := by
  unfold roundHalfEven
  rw [Int.floor_intCast]
  norm_num

theorem pyRound_thousandth (k : ℤ) : pyRound 3 ((k : ℚ) / 1000) = (k : ℚ) / 1000 := by
  unfold pyRound
  norm_num
  rw [roundHalfEven_intCast]

theorem pyRound_thousandth_nat (n : ℕ) : pyRound 3 ((n : ℚ) / 1000) = (n : ℚ) / 1000 := by
  have h := pyRound_thousandth (n : ℤ)
  push_cast at h
  exact h

/-- `signed16` (the source's wrap condition `raw > 32767`) agrees with the
spec-side `twosComplement16` (wrap condition `raw >= 32768`) everywhere. -/
theorem signed16_eq_twosComplement16 (raw : Nat) : signed16 raw = twosComplement16 raw := by
  unfold signed16 twosComplement16
  rcases Nat.lt_or_ge raw 32768 with hlt | hge
  · rw [if_neg (by omega), if_neg (by omega)]
  · rw [if_pos (by omega), if_pos (by omega)]

/-- A single-bit AND mask is nonzero exactly when the bit at that position is set. -/
theorem bne_mask_testBit (n i : ℕ) : (n &&& 2 ^ i != 0) = n.testBit i := by
  rw [Nat.and_two_pow]
  cases h : n.testBit i <;> simp

/-! ## Claim theorems -/

/-- Claim C1, counterexample: the claim says the charge phase comes from bits
[6:4] of status1, so status1 = 0x30 (bits [6:4] = 3) should decode to
"Fast Charge (CC)"; the code shifts by 5 and reports "Trickle Charge". -/
theorem C1_counterexample :
    (get_charger_status (statusBus 0 0x30 0) ⟨0, []⟩).1 =
      Except.ok ⟨true, "Trickle Charge", false, "No Input", true, false⟩ ∧
    "Trickle Charge" ≠ "Fast Charge (CC)" :=
  ⟨rfl, by decide⟩

/-- Claim C1 (amended): the charge phase is decoded from bits [7:5] of
status1 via the 8-entry table (with its "Unknown" fallback); in particular
any status1 whose bits [7:5] equal 3 (e.g. 0x60) reports "Fast Charge (CC)". -/
theorem C1_charge_phase_amended (s0 s1 s2 : Nat) (d : ChargerStatus) (log : BusLog)
    (h : get_charger_status (statusBus s0 s1 s2) ⟨0, []⟩ = (Except.ok d, log)) :
    d.charge_status = charge_status_str ((s1 >>> 5) &&& 0x07) ∧
    ((s1 >>> 5) &&& 0x07 = 3 → d.charge_status = "Fast Charge (CC)") := by
  rw [charger_status_run] at h
  simp only [Prod.mk.injEq, Except.ok.injEq] at h
  obtain ⟨rfl, rfl⟩ := h
  refine ⟨rfl, fun h3 => ?_⟩
  show charge_status_str ((s1 >>> 5) &&& 0x07) = "Fast Charge (CC)"
  rw [h3]
  rfl

/-- Witness for C1 at status1 = 0x60 (bits [7:5] = 3). -/
theorem C1_witness :
    (⟨false, "Fast Charge (CC)", false, "No Input", true, false⟩ : ChargerStatus).charge_status =
      charge_status_str ((0x60 >>> 5) &&& 0x07) ∧
    ((0x60 >>> 5) &&& 0x07 = 3 →
      (⟨false, "Fast Charge (CC)", false, "No Input", true, false⟩ : ChargerStatus).charge_status =
        "Fast Charge (CC)") :=
  C1_charge_phase_amended 0 0x60 0
    ⟨false, "Fast Charge (CC)", false, "No Input", true, false⟩
    ⟨3, [BusOp.read REG_CHARGER_STATUS_0, BusOp.read REG_CHARGER_STATUS_1,
         BusOp.read REG_CHARGER_STATUS_2]⟩ rfl

/-- Claim C2: for every 16-bit IBAT word the decoded battery current is its
two's-complement value scaled by 0.001, with the four stated sample points. -/
theorem C2_battery_current_twos_complement (msb lsb : Nat)
    (hm : msb < 256) (hl : lsb < 256) :
    batteryCurrentAt msb lsb = (twosComplement16 ((msb <<< 8) ||| lsb) : ℚ) / 1000 ∧
    batteryCurrentAt 0 0 = 0 ∧
    batteryCurrentAt 255 255 = -(1/1000) ∧
    batteryCurrentAt 128 0 = -(32768/1000) ∧
    batteryCurrentAt 127 255 = 32767/1000 := by
  have key : ∀ a b : Nat, batteryCurrentAt a b = (signed16 ((a <<< 8) ||| b) : ℚ) / 1000 :=
    fun a b => rfl
  refine ⟨by rw [key, signed16_eq_twosComplement16], ?_, ?_, ?_, ?_⟩
  · rw [key, show ((0 <<< 8) ||| 0 : Nat) = 0 from by decide]
    norm_num [signed16]
  · rw [key, show ((255 <<< 8) ||| 255 : Nat) = 65535 from by decide]
    norm_num [signed16]
  · rw [key, show ((128 <<< 8) ||| 0 : Nat) = 32768 from by decide]
    norm_num [signed16]
  · rw [key, show ((127 <<< 8) ||| 255 : Nat) = 32767 from by decide]
    norm_num [signed16]

/-- Witness for C2 at the word 0x8000 (msb 128, lsb 0): -32.768 A. -/
theorem C2_witness :
    batteryCurrentAt 128 0 = (twosComplement16 ((128 <<< 8) ||| 0) : ℚ) / 1000 ∧
    batteryCurrentAt 0 0 = 0 ∧
    batteryCurrentAt 255 255 = -(1/1000) ∧
    batteryCurrentAt 128 0 = -(32768/1000) ∧
    batteryCurrentAt 127 255 = 32767/1000 :=
  C2_battery_current_twos_complement 128 0 (by norm_num) (by norm_num)

/-- Claim C9: each of the ten fault flags is the AND-mask of its fixed bit
position (vac1_ovp..vbus_ovp are fault0 bits 7..1, vsys_ovp/tshut/
bat_temp_fault are fault1 bits 7, 6, 3); for fault0 = 0x82, fault1 = 0 only
vac1_ovp and vbus_ovp are set. -/
theorem C9_fault_bits (f0 f1 : Nat) (d : FaultStatus) (log : BusLog)
    (h : get_fault_status (faultBus f0 f1) ⟨0, []⟩ = (Except.ok d, log)) :
    (d.vac1_ovp = f0.testBit 7 ∧ d.vac2_ovp = f0.testBit 6 ∧ d.conv_ocp = f0.testBit 5 ∧
     d.ibat_reg = f0.testBit 4 ∧ d.ibus_reg = f0.testBit 3 ∧ d.vbat_ovp = f0.testBit 2 ∧
     d.vbus_ovp = f0.testBit 1 ∧ d.vsys_ovp = f1.testBit 7 ∧ d.tshut = f1.testBit 6 ∧
     d.bat_temp_fault = f1.testBit 3) ∧
    (f0 = 0x82 → f1 = 0 →
      d = ⟨true, false, false, false, false, false, true, false, false, false⟩) := by
  rw [fault_status_run] at h
  simp only [Prod.mk.injEq, Except.ok.injEq] at h
  obtain ⟨rfl, rfl⟩ := h
  constructor
  · exact ⟨bne_mask_testBit f0 7, bne_mask_testBit f0 6, bne_mask_testBit f0 5,
      bne_mask_testBit f0 4, bne_mask_testBit f0 3, bne_mask_testBit f0 2,
      bne_mask_testBit f0 1, bne_mask_testBit f1 7, bne_mask_testBit f1 6,
      bne_mask_testBit f1 3⟩
  · rintro rfl rfl
    decide

/-- Witness for C9 at fault0 = 0x82, fault1 = 0. -/
theorem C9_witness :
    ((⟨true, false, false, false, false, false, true, false, false, false⟩ : FaultStatus).vac1_ovp =
        (0x82 : ℕ).testBit 7 ∧
      (⟨true, false, false, false, false, false, true, false, false, false⟩ : FaultStatus).vac2_ovp =
        (0x82 : ℕ).testBit 6 ∧
      (⟨true, false, false, false, false, false, true, false, false, false⟩ : FaultStatus).conv_ocp =
        (0x82 : ℕ).testBit 5 ∧
      (⟨true, false, false, false, false, false, true, false, false, false⟩ : FaultStatus).ibat_reg =
        (0x82 : ℕ).testBit 4 ∧
      (⟨true, false, false, false, false, false, true, false, false, false⟩ : FaultStatus).ibus_reg =
        (0x82 : ℕ).testBit 3 ∧
      (⟨true, false, false, false, false, false, true, false, false, false⟩ : FaultStatus).vbat_ovp =
        (0x82 : ℕ).testBit 2 ∧
      (⟨true, false, false, false, false, false, true, false, false, false⟩ : FaultStatus).vbus_ovp =
        (0x82 : ℕ).testBit 1 ∧
      (⟨true, false, false, false, false, false, true, false, false, false⟩ : FaultStatus).vsys_ovp =
        (0 : ℕ).testBit 7 ∧
      (⟨true, false, false, false, false, false, true, false, false, false⟩ : FaultStatus).tshut =
        (0 : ℕ).testBit 6 ∧
      (⟨true, false, false, false, false, false, true, false, false, false⟩ : FaultStatus).bat_temp_fault =
        (0 : ℕ).testBit 3) ∧
    ((0x82 : ℕ) = 0x82 → (0 : ℕ) = 0 →
      (⟨true, false, false, false, false, false, true, false, false, false⟩ : FaultStatus) =
        ⟨true, false, false, false, false, false, true, false, false, false⟩) :=
  C9_fault_bits 0x82 0 ⟨true, false, false, false, false, false, true, false, false, false⟩
    ⟨2, [BusOp.read REG_FAULT_STATUS_0, BusOp.read REG_FAULT_STATUS_1]⟩ rfl

/-- Claim C3, counterexample: on a bus whose answers drift between reads
(first VBAT word 256 → 0.256 V, first IBAT word 100 → 0.1 A, all later reads
0), the snapshot succeeds with battery.power = 0 while
round(battery.voltage * battery.current, 3) = 0.026, because the power entry
re-reads the registers instead of reusing the bytes behind the voltage and
current fields. -/
theorem C3_counterexample :
    (get_all_data 0 busDrift ⟨0, []⟩).1.toOption.map (fun d => d.battery.power) = some 0 ∧
    (get_all_data 0 busDrift ⟨0, []⟩).1.toOption.map
      (fun d => pyRound 3 (d.battery.voltage * d.battery.current)) = some (13/500) ∧
    (0 : ℚ) ≠ 13/500 := by
  have hv : ((1 <<< 8) ||| 0 : Nat) = 256 := by decide
  have hz : ((0 <<< 8) ||| 0 : Nat) = 0 := by decide
  have hc : ((0 <<< 8) ||| 100 : Nat) = 100 := by decide
  have hrun : (get_all_data 0 busDrift ⟨0, []⟩).1 =
      Except.ok {
        battery := {
          voltage := pyRound 3 ((((1 <<< 8) ||| 0 : Nat) : ℚ) / 1000)
          current := pyRound 3 ((signed16 ((0 <<< 8) ||| 100) : ℚ) / 1000)
          power := pyRound 3 (((((0 <<< 8) ||| 0 : Nat) : ℚ) / 1000) *
            ((signed16 ((0 <<< 8) ||| 0) : ℚ) / 1000)) }
        system := {
          voltage := pyRound 3 ((((0 <<< 8) ||| 0 : Nat) : ℚ) / 1000)
          temperature := pyRound 1 ((((0 <<< 8) ||| 0 : Nat) : ℚ) * (1/2) - 40) }
        input := {
          voltage := pyRound 3 ((((0 <<< 8) ||| 0 : Nat) : ℚ) / 1000)
          current := pyRound 3 ((((0 <<< 8) ||| 0 : Nat) : ℚ) / 1000)
          power := pyRound 3 (((((0 <<< 8) ||| 0 : Nat) : ℚ) / 1000) *
            ((((0 <<< 8) ||| 0 : Nat) : ℚ) / 1000)) }
        status := ⟨(0 : Nat) &&& 0x10 != 0, charge_status_str (((0 : Nat) >>> 5) &&& 0x07),
          (0 : Nat) &&& 0x80 != 0, vbus_status_str (((0 : Nat) >>> 5) &&& 0x07),
          !((0 : Nat) &&& 0x08 != 0), (0 : Nat) &&& 0x04 != 0⟩
        faults := ⟨(0 : Nat) &&& 0x80 != 0, (0 : Nat) &&& 0x40 != 0, (0 : Nat) &&& 0x20 != 0,
          (0 : Nat) &&& 0x10 != 0, (0 : Nat) &&& 0x08 != 0, (0 : Nat) &&& 0x04 != 0,
          (0 : Nat) &&& 0x02 != 0, (0 : Nat) &&& 0x80 != 0, (0 : Nat) &&& 0x40 != 0,
          (0 : Nat) &&& 0x08 != 0⟩
        timestamp := 0 } := rfl
  rw [hrun]
  simp only [Except.toOption, Option.map_some]
  refine ⟨?_, ?_, by norm_num⟩
  · rw [hz]
    norm_num [signed16, pyRound, roundHalfEven]
  · rw [hv, hc]
    norm_num [signed16, pyRound, roundHalfEven]
    have hfl : ⌊(128 : ℚ)/5⌋ = 25 := by
      rw [Int.floor_eq_iff]
      norm_num
    have hfr : Int.fract ((128 : ℚ)/5) = 3/5 := by
      rw [Int.fract, hfl]
      norm_num
    rw [hfr]
    norm_num

/-- Claim C3 (amended): when the bus is register-deterministic within the
polling cycle (repeated reads of one register return the same byte), the
snapshot satisfies battery.power = round(battery.voltage * battery.current, 3)
and input.power = round(input.voltage * input.current, 3); the code re-reads
the registers for the power entries, so on a bus whose answers change between
reads the identity can fail. -/
theorem C3_power_identity (t : ℚ) (f : ℕ → ℕ) (d : AllData) (log : BusLog)
    (h : get_all_data t (regBus f) ⟨0, []⟩ = (Except.ok d, log)) :
    d.battery.power = pyRound 3 (d.battery.voltage * d.battery.current) ∧
    d.input.power = pyRound 3 (d.input.voltage * d.input.current) := by
  rw [get_all_data_regBus_run] at h
  simp only [Prod.mk.injEq, Except.ok.injEq] at h
  obtain ⟨rfl, rfl⟩ := h
  constructor
  · show pyRound 3 _ = pyRound 3 (pyRound 3 _ * pyRound 3 _)
    rw [pyRound_thousandth_nat, pyRound_thousandth]
    norm_cast
  · show pyRound 3 _ = pyRound 3 (pyRound 3 _ * pyRound 3 _)
    rw [pyRound_thousandth_nat, pyRound_thousandth_nat]
    norm_cast

/-- Witness for C3 on the all-zero register-deterministic bus. -/
theorem C3_witness :
    dAllZero.battery.power = pyRound 3 (dAllZero.battery.voltage * dAllZero.battery.current) ∧
    dAllZero.input.power = pyRound 3 (dAllZero.input.voltage * dAllZero.input.current) :=
  C3_power_identity 0 (fun _ => 0) dAllZero ⟨25, fullCaptureTrace⟩ rfl

/-- A `get_all_data` call that raises makes `battery_capture` return the 500
error body with the cache untouched. -/
theorem battery_capture_error {now tcap : ℚ} {bus : Bus} {cache : Cache} {e : String}
    (hcap : capture tcap bus = Except.error e) :
    battery_capture now tcap bus cache =
      ⟨BatteryResponse.failure "Failed to read battery data" e, cache,
       (get_all_data tcap bus ⟨0, []⟩).2.trace⟩ := by
  unfold battery_capture
  unfold capture at hcap
  rcases hga : get_all_data tcap bus ⟨0, []⟩ with ⟨r, lg⟩
  rw [hga] at hcap
  simp only at hcap
  subst hcap
  rfl

/-- A successful `get_all_data` call makes `battery_capture` publish the
snapshot with the handler's own timestamp. -/
theorem battery_capture_success {now tcap : ℚ} {bus : Bus} {cache : Cache} {d : AllData}
    (hcap : capture tcap bus = Except.ok d) :
    battery_capture now tcap bus cache =
      ⟨BatteryResponse.ok d, some (d, now), (get_all_data tcap bus ⟨0, []⟩).2.trace⟩ := by
  unfold battery_capture
  unfold capture at hcap
  rcases hga : get_all_data tcap bus ⟨0, []⟩ with ⟨r, lg⟩
  rw [hga] at hcap
  simp only at hcap
  subst hcap
  rfl

/-- A successful capture issues exactly the fixed operation sequence and
stamps the snapshot with its `time.time()`. -/
theorem capture_ok_ops {tcap : ℚ} {bus : Bus} {d : AllData}
    (hcap : capture tcap bus = Except.ok d) :
    (get_all_data tcap bus ⟨0, []⟩).2.trace = fullCaptureTrace ∧ d.timestamp = tcap := by
  have hp : get_all_data tcap bus ⟨0, []⟩ =
      (capture tcap bus, (get_all_data tcap bus ⟨0, []⟩).2) := rfl
  rw [hcap] at hp
  exact capture_ok_trace hp

/-- Claim C4: for every cache state on which a capture is attempted (empty
cache, or a cached snapshot outside its freshness window) and every capture
that raises, the `/battery` handler returns the HTTP 500 JSON error body and
leaves the cache exactly as it was — the error is never stored; and whenever
that cache held a previous snapshot, any later request inside the snapshot's
freshness window still serves it unchanged. -/
theorem C4_failed_capture_preserves_cache (now tcap : ℚ) (bus : Bus) (cache : Cache)
    (e : String) (d : AllData) (ts now2 tc2 : ℚ) (bus2 : Bus)
    (hcap : capture tcap bus = Except.error e)
    (hstale : ∀ d0 ts0, cache = some (d0, ts0) → ¬(now - ts0 < cache_timeout)) :
    (get_battery_info now tcap bus cache).resp =
      BatteryResponse.failure "Failed to read battery data" e ∧
    respCode (get_battery_info now tcap bus cache).resp = 500 ∧
    (get_battery_info now tcap bus cache).cache = cache ∧
    (cache = some (d, ts) → now2 - ts < cache_timeout →
      (get_battery_info now2 tc2 bus2 cache).resp = BatteryResponse.ok d ∧
      (get_battery_info now2 tc2 bus2 cache).cache = cache) := by
  rcases cache with _ | ⟨d0, ts0⟩
  · have hmain : get_battery_info now tcap bus none =
        ⟨BatteryResponse.failure "Failed to read battery data" e, none,
         (get_all_data tcap bus ⟨0, []⟩).2.trace⟩ := by
      simp only [get_battery_info]
      exact battery_capture_error hcap
    rw [hmain]
    exact ⟨rfl, rfl, rfl, fun hsome => absurd hsome (by simp)⟩
  · have hmain : get_battery_info now tcap bus (some (d0, ts0)) =
        ⟨BatteryResponse.failure "Failed to read battery data" e, some (d0, ts0),
         (get_all_data tcap bus ⟨0, []⟩).2.trace⟩ := by
      simp only [get_battery_info]
      rw [if_neg (hstale d0 ts0 rfl)]
      exact battery_capture_error hcap
    refine ⟨by rw [hmain], by rw [hmain]; rfl, by rw [hmain], ?_⟩
    rintro heq hfresh2
    obtain ⟨rfl, rfl⟩ : d0 = d ∧ ts0 = ts := by
      simpa using heq
    have hserve : get_battery_info now2 tc2 bus2 (some (d0, ts0)) =
        ⟨BatteryResponse.ok d0, some (d0, ts0), []⟩ := by
      simp only [get_battery_info]
      rw [if_pos hfresh2]
    rw [hserve]
    exact ⟨rfl, rfl⟩

/-- Witness for C4: dead bus, stale cached snapshot from time 0, request at
time 5, follow-up request at time 1/2; the inner freshness implication is
discharged at the same concrete input. -/
theorem C4_witness :
    (get_battery_info 5 0 busDown (some (dAllZero, 0))).resp =
      BatteryResponse.failure "Failed to read battery data" "Remote I2C error" ∧
    respCode (get_battery_info 5 0 busDown (some (dAllZero, 0))).resp = 500 ∧
    (get_battery_info 5 0 busDown (some (dAllZero, 0))).cache = some (dAllZero, 0) ∧
    (get_battery_info (1/2) 0 busAllZero (some (dAllZero, 0))).resp =
      BatteryResponse.ok dAllZero ∧
    (get_battery_info (1/2) 0 busAllZero (some (dAllZero, 0))).cache = some (dAllZero, 0) :=
  have h := C4_failed_capture_preserves_cache 5 0 busDown (some (dAllZero, 0))
    "Remote I2C error" dAllZero 0 (1/2) 0 busAllZero rfl
    (fun d0 ts0 heq => by
      obtain ⟨rfl, rfl⟩ : dAllZero = d0 ∧ (0 : ℚ) = ts0 := by simpa using heq
      norm_num [cache_timeout])
  ⟨h.1, h.2.1, h.2.2.1, (h.2.2.2 rfl (by norm_num [cache_timeout])).1,
   (h.2.2.2 rfl (by norm_num [cache_timeout])).2⟩

/-- Claim C5: starting from the empty cache, a first `/battery` request at
time t captures once and stores the snapshot under timestamp t; a second
request at t1 with t1 - t < 1 s serves the cache without touching the bus; a
third request at t2 with t2 - t >= 1 s captures again. -/
theorem C5_cache_window (bus : Bus) (t t1 t2 tc1 tc2 tc3 : ℚ) (d1 d3 : AllData)
    (hc1 : capture tc1 bus = Except.ok d1)
    (hc3 : capture tc3 bus = Except.ok d3)
    (h12 : t1 - t < cache_timeout)
    (h13 : ¬(t2 - t < cache_timeout)) :
    countCaptures (get_battery_info t tc1 bus none).ops = 1 ∧
    (get_battery_info t tc1 bus none).resp = BatteryResponse.ok d1 ∧
    (get_battery_info t tc1 bus none).cache = some (d1, t) ∧
    (get_battery_info t1 tc2 bus (get_battery_info t tc1 bus none).cache).resp =
      BatteryResponse.ok d1 ∧
    (get_battery_info t1 tc2 bus (get_battery_info t tc1 bus none).cache).cache = some (d1, t) ∧
    countCaptures (get_battery_info t1 tc2 bus (get_battery_info t tc1 bus none).cache).ops = 0 ∧
    countCaptures (get_battery_info t2 tc3 bus
      (get_battery_info t1 tc2 bus (get_battery_info t tc1 bus none).cache).cache).ops = 1 := by
  have h1 : get_battery_info t tc1 bus none =
      ⟨BatteryResponse.ok d1, some (d1, t), (get_all_data tc1 bus ⟨0, []⟩).2.trace⟩ := by
    simp only [get_battery_info]
    exact battery_capture_success hc1
  have hops1 : (get_all_data tc1 bus ⟨0, []⟩).2.trace = fullCaptureTrace := (capture_ok_ops hc1).1
  have h2 : get_battery_info t1 tc2 bus (some (d1, t)) =
      ⟨BatteryResponse.ok d1, some (d1, t), []⟩ := by
    simp only [get_battery_info]
    rw [if_pos h12]
  have h3 : get_battery_info t2 tc3 bus (some (d1, t)) =
      ⟨BatteryResponse.ok d3, some (d3, t2), (get_all_data tc3 bus ⟨0, []⟩).2.trace⟩ := by
    simp only [get_battery_info]
    rw [if_neg h13]
    exact battery_capture_success hc3
  have hops3 : (get_all_data tc3 bus ⟨0, []⟩).2.trace = fullCaptureTrace := (capture_ok_ops hc3).1
  have hcount1 : countCaptures fullCaptureTrace = 1 := by decide
  have hcount0 : countCaptures ([] : List BusOp) = 0 := rfl
  rw [h1]
  simp [hops1, h2, h3, hops3, hcount1, hcount0]

/-- Witness for C5: all-zero bus, requests at times 0, 1/2 and 2. -/
theorem C5_witness :
    countCaptures (get_battery_info 0 0 busAllZero none).ops = 1 ∧
    (get_battery_info 0 0 busAllZero none).resp = BatteryResponse.ok dAllZero ∧
    (get_battery_info 0 0 busAllZero none).cache = some (dAllZero, 0) ∧
    (get_battery_info (1/2) 0 busAllZero (get_battery_info 0 0 busAllZero none).cache).resp =
      BatteryResponse.ok dAllZero ∧
    (get_battery_info (1/2) 0 busAllZero (get_battery_info 0 0 busAllZero none).cache).cache =
      some (dAllZero, 0) ∧
    countCaptures (get_battery_info (1/2) 0 busAllZero
      (get_battery_info 0 0 busAllZero none).cache).ops = 0 ∧
    countCaptures (get_battery_info 2 0 busAllZero
      (get_battery_info (1/2) 0 busAllZero
        (get_battery_info 0 0 busAllZero none).cache).cache).ops = 1 :=
  C5_cache_window busAllZero 0 (1/2) 2 0 0 0 dAllZero dAllZero rfl rfl
    (by norm_num [cache_timeout]) (by norm_num [cache_timeout])

/-- Claim C6: the single-value routes read ADC registers without enabling the
ADC first.  Starting a fresh service and issuing one request, each of
`/battery/voltage`, `/battery/current` and `/battery/temperature` issues only
the two ADC-register byte reads and never writes 0x80 to ADC_CTRL, so in that
execution an ADC register is read with no prior `enable_adc`. -/
theorem C6_adc_read_without_enable :
    (get_voltage busAllZero).ops = [BusOp.read REG_VBAT_ADC, BusOp.read (REG_VBAT_ADC + 1)] ∧
    countCaptures (get_voltage busAllZero).ops = 0 ∧
    (get_voltage busAllZero).code = 200 ∧
    (get_current busAllZero).ops = [BusOp.read REG_IBAT_ADC, BusOp.read (REG_IBAT_ADC + 1)] ∧
    countCaptures (get_current busAllZero).ops = 0 ∧
    (get_temperature busAllZero).ops = [BusOp.read REG_TDIE_ADC, BusOp.read (REG_TDIE_ADC + 1)] ∧
    countCaptures (get_temperature busAllZero).ops = 0 := by
  decide

/-- Claim C7, counterexample: a successful capture does not read each register
exactly once: the run on the all-zero bus succeeds and reads the VBAT MSB
register twice (the spec order `specCaptureTrace` reads it once). -/
theorem C7_counterexample :
    (get_all_data 0 busAllZero ⟨0, []⟩).1.toOption.isSome = true ∧
    (get_all_data 0 busAllZero ⟨0, []⟩).2.trace.count (BusOp.read REG_VBAT_ADC) = 2 ∧
    specCaptureTrace.count (BusOp.read REG_VBAT_ADC) = 1 := by
  decide

/-- Claim C7 (amended): every successful capture first writes 0x80 to
ADC_CTRL and sleeps 100 ms, then issues byte reads in the fixed order VBAT,
IBAT, VBAT, IBAT (re-read for battery power), VSYS, TDIE, VBUS, IBUS, VBUS,
IBUS (re-read for input power), status0-2, fault0-1 (16-bit registers as MSB
then LSB), and assembles the snapshot with the current wall-clock timestamp. -/
theorem C7_capture_sequence (t : ℚ) (bus : Bus) (d : AllData) (log : BusLog)
    (h : get_all_data t bus ⟨0, []⟩ = (Except.ok d, log)) :
    log.trace = fullCaptureTrace ∧ d.timestamp = t :=
  capture_ok_trace h

/-- Witness for C7 on the all-zero bus. -/
theorem C7_witness :
    (get_all_data 0 busAllZero ⟨0, []⟩).2.trace = fullCaptureTrace ∧ dAllZero.timestamp = 0 :=
  C7_capture_sequence 0 busAllZero dAllZero (get_all_data 0 busAllZero ⟨0, []⟩).2 rfl

/-- One step of the interleaving model preserves the lock discipline. -/
theorem concStep_inv (tau tcap : Bool → ℚ) (bus : Bus) (i : Bool) (s : ConcState)
    (h : concInv s) : concInv (concStep tau tcap bus i s) := by
  obtain ⟨hA, hB, hC, hD⟩ := h
  unfold concStep
  rcases i <;> split <;> (try split) <;> (try split) <;>
    simp_all [concInv, updFn]

/-- Every reachable state of the interleaving model satisfies the lock
discipline. -/
theorem concRun_inv (tau tcap : Bool → ℚ) (bus : Bus) (sched : List Bool) :
    concInv (concRun tau tcap bus sched) := by
  suffices h : ∀ s, concInv s → concInv (sched.foldl (fun s i => concStep tau tcap bus i s) s) by
    refine h concInit ?_
    simp [concInv, concInit]
  induction sched with
  | nil => exact fun s hs => hs
  | cons i rest ih => exact fun s hs => ih _ (concStep_inv tau tcap bus i s hs)

/-- Claim C8 (amended): at most one hardware capture is in flight at any time
— in every reachable state of two concurrent `/battery` requests at most one
thread is inside `get_all_data`, because all device I/O sits behind the single
`bq_lock`.  However the handler does not re-check cache freshness after
acquiring the lock, so a request queued during a capture performs its own
back-to-back capture instead of returning the just-refreshed snapshot (see
the counterexample). -/
theorem C8_single_capture_in_flight (tau tcap : Bool → ℚ) (bus : Bus) (sched : List Bool)
    (i j : Bool)
    (hi : (concRun tau tcap bus sched).capturing i = true)
    (hj : (concRun tau tcap bus sched).capturing j = true) : i = j := by
  obtain ⟨hA, hB, hC, hD⟩ := concRun_inv tau tcap bus sched
  rcases i <;> rcases j <;> try rfl
  · have hf := hA hi
    have ht := hB hj
    have h1 := hC (by rw [hf]; exact ⟨by norm_num, by norm_num⟩)
    have h2 := hD (by rw [ht]; exact ⟨by norm_num, by norm_num⟩)
    rw [h1] at h2
    exact absurd h2 (by simp)
  · have hf := hA hj
    have ht := hB hi
    have h1 := hC (by rw [hf]; exact ⟨by norm_num, by norm_num⟩)
    have h2 := hD (by rw [ht]; exact ⟨by norm_num, by norm_num⟩)
    rw [h1] at h2
    exact absurd h2 (by simp)

/-- Witness for C8: after the schedule `[false, false, false]` thread `false`
is mid-capture, so the theorem applies with both hypotheses discharged. -/
theorem C8_witness : false = false :=
  C8_single_capture_in_flight (fun _ => 0) (fun _ => 0) busAllZero [false, false, false]
    false false (by decide) (by decide)

/-- Claim C8, counterexample: with both requests arriving at time 0 on the
empty cache, after `[false, false, false, true]` thread `false` is capturing
while thread `true` is queued on the lock; running the schedule to completion
performs two captures — the queued request does not return the refreshed
snapshot but triggers a redundant back-to-back capture, because the handler
never re-checks freshness after acquiring the lock. -/
theorem C8_counterexample :
    (concRun (fun _ => 0) (fun _ => 0) busAllZero [false, false, false, true]).capturing false = true ∧
    (concRun (fun _ => 0) (fun _ => 0) busAllZero [false, false, false, true]).pc true = 1 ∧
    (concRun (fun _ => 0) (fun _ => 0) busAllZero [false, false, false, true]).lockHolder = some false ∧
    (concRun (fun _ => 0) (fun _ => 0) busAllZero
      [false, false, false, true, false, false, true, true, true, true, false, true]).capCount = 2 := by
  decide

/-- Claim C10: once the driver instance exists, `/health` answers 200
"healthy" while issuing no bus operation at all, whatever a bus (re)open
would now return — a bus failure after initialization never shows up in the
health result. -/
theorem C10_health_no_bus_io (init : Except String Unit) :
    health true init = ((200, HealthBody.healthy), true, ([] : List BusOp)) := rfl
